import Mathlib

/-
Verification development for the ENCS chunked file compressor
(src/Compression_tests/compression_system.rs).

Bytes are modelled as natural numbers below 256 inside `List Nat`; machine
integers are `Nat`/`Int` with explicit `% 2^w` where the source casts or
wraps; `f64` quantities that enter only through comparisons and factor
tables are modelled as `ℚ`; fallible code returns `Except CompressionError`.
Third-party codec bodies (zstd, lz4, snappy, brotli, deflate crates) are not
code of this repository and enter the model as explicit function parameters;
everything the repository itself computes (framing, checksums, selection
tables, validation, retry logic) is translated directly.
-/

namespace ENCS

/-! ## Little-endian byte encodings (`to_le_bytes` / u32 reads) -/

/-- `u32::to_le_bytes`: four little-endian bytes of `n % 2^32`. -/
def u32_le (n : Nat) : List Nat :=
  [n % 256, n / 256 % 256, n / 2 ^ 16 % 256, n / 2 ^ 24 % 256]

/-- `u64::to_le_bytes`: eight little-endian bytes of `n % 2^64`. -/
def u64_le (n : Nat) : List Nat :=
  [n % 256, n / 256 % 256, n / 2 ^ 16 % 256, n / 2 ^ 24 % 256,
   n / 2 ^ 32 % 256, n / 2 ^ 40 % 256, n / 2 ^ 48 % 256, n / 2 ^ 56 % 256]

/-- Read a little-endian u32 from the first four bytes of a list. -/
def u32_decode (bs : List Nat) : Nat :=
  bs.getD 0 0 + 256 * bs.getD 1 0 + 2 ^ 16 * bs.getD 2 0 + 2 ^ 24 * bs.getD 3 0

/-- Read a little-endian u64 from the first eight bytes of a list. -/
def u64_decode (bs : List Nat) : Nat :=
  bs.getD 0 0 + 256 * bs.getD 1 0 + 2 ^ 16 * bs.getD 2 0 + 2 ^ 24 * bs.getD 3 0 +
  2 ^ 32 * bs.getD 4 0 + 2 ^ 40 * bs.getD 5 0 + 2 ^ 48 * bs.getD 6 0 + 2 ^ 56 * bs.getD 7 0

/-! ## CRC-32 (IEEE, as computed by the `crc32fast` crate)

Reflected polynomial 0xEDB88320, initial value 0xFFFFFFFF, final xor
0xFFFFFFFF. -/

/-- One bit step of the reflected CRC-32. -/
def crc32_step (c : Nat) : Nat :=
  if c % 2 = 1 then (c / 2) ^^^ 0xEDB88320 else c / 2

/-- Apply a step function `k` times. -/
def iterate_steps (f : Nat → Nat) : Nat → Nat → Nat
  | 0, c => c
  | k + 1, c => iterate_steps f k (f c)

/-- Fold one input byte into the CRC-32 state. -/
def crc32_byte (c b : Nat) : Nat :=
  iterate_steps crc32_step 8 (c ^^^ b % 256)

/-- CRC-32 (IEEE) of a byte sequence. -/
def crc32 (data : List Nat) : Nat :=
  (data.foldl crc32_byte 0xFFFFFFFF) ^^^ 0xFFFFFFFF

/-! ## CRC-64/ECMA-182 (the `crc` crate's `CRC_64_ECMA_182`)

Non-reflected polynomial 0x42F0E1EBA9EA3693, initial value 0, no final xor. -/

/-- One bit step of the MSB-first CRC-64. -/
def crc64_step (c : Nat) : Nat :=
  if c / 2 ^ 63 = 1 then (c * 2) % 2 ^ 64 ^^^ 0x42F0E1EBA9EA3693 else (c * 2) % 2 ^ 64

/-- Fold one input byte into the CRC-64 state. -/
def crc64_byte (c b : Nat) : Nat :=
  iterate_steps crc64_step 8 (c ^^^ (b % 256) * 2 ^ 56)

/-- CRC-64/ECMA-182 of a byte sequence. -/
def crc64 (data : List Nat) : Nat :=
  data.foldl crc64_byte 0

/-! ## Constants (source lines 236-247) -/

/-- `MAGIC_BYTES`: the ASCII bytes of "ENCS". -/
def MAGIC_BYTES : List Nat := [69, 78, 67, 83]

/-- `MAGIC_VERSION`: the ASCII bytes of "v4.0". -/
def MAGIC_VERSION : List Nat := [118, 52, 46, 48]

/-- `VERSION`: current file format version. -/
def VERSION : Nat := 4

/-- `MAX_DICTIONARY_SIZE` = 64 MiB. -/
def MAX_DICTIONARY_SIZE : Nat := 64 * 1024 * 1024

/-! ## Data model

The Rust enums are mirrored constructor-for-constructor.  Payload fields
that no modelled function inspects (human-language tags, colour info,
stream info, debug info, ...) are omitted; every field that any modelled
function reads or constructs is kept under its source name. -/

inductive ZstdStrategy
  | Fast | Default | Greedy | Lazy | Lazy2 | BtLazy2 | BtOpt | BtUltra | BtUltra2
  deriving DecidableEq, Repr

inductive Lz4Variant
  | Standard | HighCompression | Frame
  deriving DecidableEq, Repr

inductive Lz4BlockSize
  | Default | Max64KB | Max256KB | Max1MB | Max4MB
  deriving DecidableEq, Repr

inductive BrotliMode
  | Generic | Text | Font | Streaming
  deriving DecidableEq, Repr

inductive SnappyVariant
  | Raw | Framed | Hadoop
  deriving DecidableEq, Repr

inductive DeflateStrategy
  | Default | Filtered | HuffmanOnly | Rle | Fixed | FastestSpeed | BestCompression
  deriving DecidableEq, Repr

inductive LzmaMode
  | Lzma | Lzma2
  deriving DecidableEq, Repr

inductive LzmaFilter
  | Lzma2 (preset : Nat) (dict_size : Option Nat)
  | Delta (distance : Nat)
  | Bcj (start_offset : Option Nat)
  | BcjX86 | BcjPowerPC | BcjIA64 | BcjARM | BcjARMThumb | BcjSPARC
  deriving DecidableEq, Repr

inductive XzCheck
  | None | Crc32 | Crc64 | Sha256
  deriving DecidableEq, Repr

inductive XzFilter
  | Lzma2 (preset : Nat)
  | Delta (distance : Nat)
  | Bcj (start_offset : Option Nat)
  deriving DecidableEq, Repr

/-- `OptimizationTarget`.  The `Ratio` constructor carries a trailing
apostrophe in this development; it names the same source variant. -/
inductive OptimizationTarget
  | Speed | Ratio' | Memory | Balanced
  deriving DecidableEq, Repr

inductive RnnCellType
  | LSTM | GRU | Vanilla
  deriving DecidableEq, Repr

inductive ModelSize
  | Tiny | Small | Medium | Large | XLarge
  deriving DecidableEq, Repr

/-- `NeuralModel`.  `CustomModel`'s parameter map is a list of pairs. -/
inductive NeuralModel
  | TextTransformer (layers attention_heads context_window : Nat)
  | ImageCNN (depth kernel_size channels : Nat)
  | AudioRNN (hidden_size num_layers : Nat) (cell_type : RnnCellType)
  | GeneralPurpose (model_size : ModelSize) (optimization_target : OptimizationTarget)
  | CustomModel (architecture : String) (parameters : List (String × ℚ))
  deriving DecidableEq, Repr

inductive NeuralQuality
  | Draft | Fast | Balanced | High | Perfect
  | Custom (q : ℚ)
  deriving DecidableEq, Repr

inductive DataTransformation
  | ByteSwap
  | Delta (distance : Nat)
  | Rle
  | BurrowsWheeler
  | MoveToFront
  | PredictiveFilter (order : Nat)
  | Custom (name : String) (params : List (String × String))
  deriving DecidableEq, Repr

inductive CustomAlgorithm
  | LuaScript (s : String)
  | WasmModule (bytes : List Nat)
  | NativeLibrary (s : String)
  | PythonScript (s : String)
  deriving DecidableEq, Repr

/-- `CompressionAlgorithm` with all parameter fields; `f64` thresholds are
rationals, boxed sub-algorithms are direct recursive occurrences. -/
inductive CompressionAlgorithm
  | Zstd (level : Int) (dictionary : Bool) (long_distance : Bool)
      (window_size : Option Nat) (strategy : ZstdStrategy) (workers : Option Nat)
  | Lz4 (variant : Lz4Variant) (acceleration : Int) (block_size : Lz4BlockSize)
      (checksum : Bool) (independent_blocks : Bool)
  | Brotli (quality : Nat) (window_size : Nat) (mode : BrotliMode)
      (large_window : Bool) (streaming : Bool)
  | Snappy (variant : SnappyVariant) (verify_checksum : Bool)
  | Deflate (level : Nat) (strategy : DeflateStrategy) (window_bits : Int)
      (memory_level : Nat)
  | Lzma (preset : Nat) (dictionary_size : Option Nat) (mode : LzmaMode)
      (filters : List LzmaFilter)
  | Xz (preset : Nat) (check : XzCheck) (filters : List XzFilter)
  | HybridText (primary secondary : CompressionAlgorithm)
      (fallback : Option CompressionAlgorithm) (switch_threshold : ℚ)
      (analysis_window : Nat)
  | HybridBinary (fast_algo slow_algo : CompressionAlgorithm)
      (size_threshold : Nat) (entropy_threshold : ℚ)
  | NeuralCompression (model_type : NeuralModel) (quality : NeuralQuality)
      (context_size : Nat) (prediction_depth : Nat) (adaptive_learning : Bool)
  | Custom (name : String) (parameters : List (String × String))
      (implementation : CustomAlgorithm)
  | Store (transformations : List DataTransformation)

/-- `TextSubtype` constructors; their uninspected payloads (languages,
frameworks, formats) are omitted. -/
inductive TextSubtype
  | PlainText | SourceCode | Markup | Data | Log
  deriving DecidableEq, Repr

/-- `DetectedFileType`.  The `Audio` constructor carries a trailing
apostrophe in this development; it names the same source variant.  `Archive`
keeps the single `ArchiveProperties` field the code inspects
(`compression_used`); the other payloads are uninspected and omitted. -/
inductive DetectedFileType
  | Text (subtype : TextSubtype)
  | Image
  | Video
  | Audio'
  | Binary
  | Archive (compression_used : Bool)
  | Document
  | Database
  | Multimedia
  | Scientific
  | Unknown
  deriving DecidableEq, Repr

/-- The fields of `EnhancedContentAnalysis` that the modelled functions
read: `entropy`, `compressibility_score` (both `f64`, modelled as `ℚ`) and
`file_type`. -/
structure EnhancedContentAnalysis where
  entropy : ℚ
  compressibility_score : ℚ
  file_type : DetectedFileType
  deriving DecidableEq, Repr

inductive ErrorCorrectionLevel
  | None | Basic | Standard | High | Maximum
  deriving DecidableEq, Repr

/-- `CompressionOptions` (steganography method payload omitted). -/
structure CompressionOptions where
  algorithm : Option CompressionAlgorithm
  optimization_target : OptimizationTarget
  chunk_size : Nat
  enable_dictionary : Bool
  enable_neural : Bool
  enable_gpu : Bool
  enable_encryption : Bool
  enable_steganography : Bool
  error_correction_level : ErrorCorrectionLevel
  max_memory_usage : Option Nat
  thread_count : Option Nat

/-- The fields of `EngineConfiguration` that the modelled functions read. -/
structure EngineConfiguration where
  max_threads : Nat
  memory_limit : Nat
  enable_gpu : Bool
  enable_neural : Bool
  deriving DecidableEq, Repr

/-- `CompressionError`.  Every variant is kept; payloads keep the fields the
modelled code constructs or reads (strings, flags, sizes); the `Io`
constructor is named `IoError` here. -/
inductive CompressionError
  | IoError (operation source : String) (path : Option String) (recoverable : Bool)
  | Serialization (format message : String) (data_size : Option Nat)
  | Algorithm (algorithm message : String) (chunk_id : Option Nat)
      (recovery_possible : Bool)
  | InvalidFormat (expected found : String) (offset : Nat)
      (file_path : Option String)
  | VersionMismatch (file_version min_version max_version : Nat)
      (upgrade_path : Option String)
  | IntegrityViolation (check_type location expected actual : String)
      (recoverable : Bool)
  | ReedSolomon (message : String) (corrupted_shards : List Nat)
      (total_shards : Nat) (recovery_attempted : Bool)
  | Cryptography (operation message algorithm : String)
  | Memory (requested : Nat) (available : Option Nat) (operation : String)
  | Configuration (category message : String) (suggestion : Option String)
  | Hardware (capability message : String) (alternatives : List String)
  | Network (operation message : String) (endpoint : Option String)
      (retry_possible : Bool)
  | Concurrency (operation message : String) (thread_id : Option String)
  | ResourceExhaustion (resource message : String) (limit current : Option Nat)
  | Cancelled (operation : String) (partial_completion : Option ℚ)
  | Security (policy message : String)
  | FeatureUnavailable (feature message : String)
      (compile_flags : Option (List String))
  deriving DecidableEq, Repr

/-- `CompressionResult<T>` = `Result<T, CompressionError>`. -/
abbrev CompressionResult (α : Type) := Except CompressionError α

/-- `i32 as usize` on a 64-bit host: two's-complement reinterpretation. -/
def intAsUsize (i : Int) : Nat := (i % 2 ^ 64).toNat

/-- `CompressionError::is_recoverable`. -/
def CompressionError.is_recoverable : CompressionError → Bool
  | .IoError _ _ _ recoverable => recoverable
  | .Algorithm _ _ _ recovery_possible => recovery_possible
  | .IntegrityViolation _ _ _ _ recoverable => recoverable
  | .Network _ _ _ retry_possible => retry_possible
  | .ReedSolomon _ _ _ recovery_attempted => !recovery_attempted
  | .Cancelled _ _ => true
  | _ => false

/-! ## Memory validation (source lines 1698-1762) -/

/-- `estimate_memory_usage`: base memory `chunk_size * 3` plus an
algorithm-specific term.  The Zstd arm casts the signed level with
`as usize`. -/
def estimate_memory_usage (algorithm : CompressionAlgorithm) (chunk_size : Nat) : Nat :=
  let base_memory := chunk_size * 3
  let algo_memory :=
    match algorithm with
    | .Zstd level dictionary _ _ _ _ =>
        let base := 1024 * 1024
        let level_multiplier := max (intAsUsize level) 1
        let dict_memory := if dictionary then MAX_DICTIONARY_SIZE else 0
        base * level_multiplier + dict_memory
    | .Lzma preset dictionary_size _ _ =>
        let base := 16 * 1024 * 1024
        let preset_multiplier := (preset + 1) * 2
        let dict_memory := dictionary_size.getD (1024 * 1024)
        base * preset_multiplier + dict_memory
    | .Brotli quality window_size _ _ _ =>
        let base := 1024 * 1024
        let quality_multiplier := max quality 1
        let window_memory := 2 ^ window_size
        base * quality_multiplier + window_memory
    | .NeuralCompression _ _ _ _ _ => 128 * 1024 * 1024
    | _ => 1024 * 1024
  base_memory + algo_memory

/-- `validate_compression_options`.  The source passes `&options.algorithm`
(an `Option<CompressionAlgorithm>`) where `estimate_memory_usage` expects
`&CompressionAlgorithm`; a `None` algorithm is modelled through the match's
default arm (1 MiB), which is the only arm an absent algorithm could take. -/
def validate_compression_options (config : EngineConfiguration)
    (options : CompressionOptions) : CompressionResult Unit :=
  if options.enable_neural && !config.enable_neural then
    .error (.FeatureUnavailable ("neural_compression")
      ("Neural compression not enabled in engine configuration") (some [("neural" : String)]))
  else if options.enable_gpu && !config.enable_gpu then
    .error (.FeatureUnavailable ("gpu_acceleration")
      ("GPU acceleration not available") (some [("gpu" : String)]))
  else
    let estimated_memory :=
      match options.algorithm with
      | some a => estimate_memory_usage a options.chunk_size
      | none => options.chunk_size * 3 + 1024 * 1024
    if estimated_memory > config.memory_limit then
      .error (.Memory estimated_memory (some config.memory_limit)
        ("compression_validation"))
    else
      .ok ()

/-- `compress_file_async`, abridged to the ordering the memory-ceiling claim
is about: `validate_compression_inputs` (whose final step is
`validate_compression_options`) runs before `perform_compression_with_recovery`,
which is where the output file is created.  `rest` abstracts everything after
validation; the second component records whether the output file was created. -/
def compress_file_outcome {α : Type} (config : EngineConfiguration)
    (options : CompressionOptions)
    (rest : Unit → CompressionResult α × Bool) : CompressionResult α × Bool :=
  match validate_compression_options config options with
  | .error e => (.error e, false)
  | .ok _ => rest ()

/-! ## Content analyzer (source lines 1993-2008) -/

/-- `estimate_compressibility_advanced`.  The call
`self.calculate_shannon_entropy(data)` produces a transcendental `f64`; it is
passed in as the `entropy` parameter, and the function body from that point
on is translated directly (factor table and `.min(1.0).max(0.0)` clamp). -/
def estimate_compressibility_advanced (entropy : ℚ)
    (file_type : DetectedFileType) : ℚ :=
  let base_compressibility := 1 - entropy
  let type_factor : ℚ :=
    match file_type with
    | .Text _ => 12 / 10
    | .Binary => 8 / 10
    | .Image => 3 / 10
    | .Video | .Audio' => 1 / 10
    | .Archive _ => 1 / 20
    | _ => 1
  max (min (base_compressibility * type_factor) 1) 0

/-! ## Codec selector (source lines 2183-2455) -/

/-- Guard of the first selector arm:
`(DetectedFileType::Text { subtype: TextSubtype::SourceCode { .. }, .. }, score)`. -/
def DetectedFileType.isSourceCodeText : DetectedFileType → Bool
  | .Text .SourceCode => true
  | _ => false

/-- Guard of the second selector arm: `DetectedFileType::Binary { .. }`. -/
def DetectedFileType.isBinary : DetectedFileType → Bool
  | .Binary => true
  | _ => false

/-- `select_algorithm_neural_enhanced`: the decision table, arm for arm in
source order.  `max_threads` is `self.config.read().max_threads`. -/
def select_algorithm_neural_enhanced (max_threads : Nat)
    (analysis : EnhancedContentAnalysis) (options : CompressionOptions) :
    CompressionResult CompressionAlgorithm :=
  let entropy_factor : ℚ := 1 - analysis.entropy
  let compressibility_factor := analysis.compressibility_score
  let speed_priority := options.optimization_target = OptimizationTarget.Speed
  let ratio_priority := options.optimization_target = OptimizationTarget.Ratio'
  let memory_priority := options.optimization_target = OptimizationTarget.Memory
  -- Arm 1: high-compressibility source-code text
  if analysis.file_type.isSourceCodeText = true ∧ compressibility_factor > 8 / 10 then
    if ratio_priority ∧ ¬memory_priority then
      .ok (.HybridText
        (.Zstd 19 true true (some 27) .BtUltra2 (some (min max_threads 4)))
        (.Brotli 11 24 .Text true false)
        (some (.Lzma 9 (some (32 * 1024 * 1024)) .Lzma2
          [.Lzma2 9 none]))
        (105 / 100) (1024 * 1024))
    else if speed_priority then
      .ok (.Lz4 .HighCompression 1 .Max1MB true false)
    else
      .ok (.Zstd 12 true false (some 25) .Greedy (some 2))
  -- Arm 2: binary data with patterns
  else if analysis.file_type.isBinary = true ∧ compressibility_factor > 5 / 10 then
    if memory_priority then
      .ok (.Lz4 (if speed_priority then .Standard else .HighCompression)
        (if speed_priority then 1 else 4) .Max256KB true true)
    else
      .ok (.HybridBinary
        (.Lz4 .Standard 1 .Max64KB false true)
        (.Zstd (if ratio_priority then 18 else 12) options.enable_dictionary
          ratio_priority (some (if ratio_priority then 27 else 25))
          (if ratio_priority then .BtUltra else .Greedy)
          (some (min max_threads 4)))
        (options.chunk_size / 4) (7 / 10))
  else
    match analysis.file_type with
    -- Arm 3: media files (usually pre-compressed)
    | .Image | .Video | .Audio' =>
      if analysis.compressibility_score > 3 / 10 then
        .ok (.Zstd 6 false false (some 22) .Fast (some 1))
      else if entropy_factor > 1 / 10 then
        .ok (.Lz4 .HighCompression 4 .Max256KB true true)
      else
        .ok (.Store [])
    -- Arm 4: archives (already compressed)
    | .Archive compression_used =>
      if compression_used then
        .ok (.Store [])
      else
        .ok (.Zstd (if ratio_priority then 12 else 6) false false (some 23)
          .Default (some 2))
    | _ =>
      -- Arm 5: high-entropy data (encryption, random data)
      if analysis.entropy > 95 / 100 ∧ compressibility_factor < 1 / 10 then
        .ok (.Store [])
      -- Arm 6: neural compression for complex patterns (if enabled)
      else if compressibility_factor > 9 / 10 ∧ options.enable_neural = true ∧
          ¬speed_priority then
        .ok (.NeuralCompression
          (match analysis.file_type with
            | .Text _ => .TextTransformer 6 8 2048
            | .Image => .ImageCNN 8 3 64
            | .Audio' => .AudioRNN 256 3 .LSTM
            | _ => .GeneralPurpose (if ratio_priority then .Large else .Medium)
                options.optimization_target)
          (if ratio_priority then .Perfect
            else if speed_priority then .Fast else .Balanced)
          8192 4 false)
      -- Arm 7: default cases based on optimization target
      else if speed_priority then
        if entropy_factor > 5 / 10 then
          .ok (.Lz4 .Standard 1 .Max64KB false true)
        else
          .ok (.Snappy .Framed false)
      else if ratio_priority then
        .ok (.Zstd 15 options.enable_dictionary true (some 26) .BtUltra
          (some (min max_threads 4)))
      else if memory_priority then
        .ok (.Deflate 6 .Default 15 4)
      else
        .ok (.Zstd 6 false false (some 24) .Default (some 2))

/-- `select_optimal_algorithm`.  The algorithm cache is consulted first;
`cached` is the result of `self.algorithm_cache.get(&analysis_hash)` for this
analysis (the cache insert on the neural path is a state effect outside the
returned value). -/
def select_optimal_algorithm (cached : Option CompressionAlgorithm)
    (max_threads : Nat) (analysis : EnhancedContentAnalysis)
    (options : CompressionOptions) : CompressionResult CompressionAlgorithm :=
  match cached with
  | some cached_algorithm => .ok cached_algorithm
  | none =>
    match options.algorithm with
    | some algorithm => .ok algorithm
    | none => select_algorithm_neural_enhanced max_threads analysis options

/-! ## Container header (source lines 2654-2731) -/

/-- `get_algorithm_id`. -/
def get_algorithm_id : CompressionAlgorithm → Nat
  | .Store _ => 0
  | .Lz4 _ _ _ _ _ => 1
  | .Snappy _ _ => 2
  | .Deflate _ _ _ _ => 3
  | .Zstd _ _ _ _ _ _ => 4
  | .Brotli _ _ _ _ _ => 5
  | .Lzma _ _ _ _ => 6
  | .Xz _ _ _ => 7
  | .HybridText _ _ _ _ _ => 100
  | .HybridBinary _ _ _ _ => 101
  | .NeuralCompression _ _ _ _ _ => 200
  | .Custom _ _ _ => 999

/-- `get_file_type_id`. -/
def get_file_type_id : DetectedFileType → Nat
  | .Text _ => 1
  | .Image => 2
  | .Video => 3
  | .Audio' => 4
  | .Binary => 5
  | .Archive _ => 6
  | .Document => 7
  | .Database => 8
  | .Multimedia => 9
  | .Scientific => 10
  | .Unknown => 0

/-- `write_file_header`: magic, "v4.0", the u32 `VERSION`, the wall-clock
`timestamp` (seconds since the epoch, taken from `SystemTime::now()` and
passed in here), the algorithm id, the file-type id, then a CRC-64 of all the
preceding header bytes. -/
def write_file_header (timestamp : Nat) (algorithm : CompressionAlgorithm)
    (file_type : DetectedFileType) : List Nat :=
  let header_data :=
    MAGIC_BYTES ++ MAGIC_VERSION ++ u32_le VERSION ++ u64_le timestamp ++
    u32_le (get_algorithm_id algorithm) ++ u32_le (get_file_type_id file_type)
  header_data ++ u64_le (crc64 header_data)

/-! ## Chunk codec (source lines 2931-3151) -/

/-- `apply_transformation`: the three implemented transformations; the
remaining arms return the data unchanged (`_ => Ok(data.to_vec())`). -/
def apply_transformation (data : List Nat) :
    DataTransformation → CompressionResult (List Nat)
  | .ByteSwap =>
    let rec swapPairs : List Nat → List Nat
      | a :: b :: rest => b :: a :: swapPairs rest
      | xs => xs
    .ok (swapPairs data)
  | .Delta distance =>
    if data.length ≤ distance then .ok data
    else
      .ok (data.take distance ++
        (List.range (data.length - distance)).map
          (fun i => (256 + data.getD (distance + i) 0 - data.getD i 0) % 256))
  | .Rle =>
    match data with
    | [] => .ok []
    | d0 :: rest =>
      let rec go (current_byte : Nat) (count : Nat) :
          List Nat → List Nat
        | [] => [count, current_byte]
        | b :: bs =>
          if b = current_byte ∧ count < 255 then go current_byte (count + 1) bs
          else count :: current_byte :: go b 1 bs
      .ok (go d0 1 rest)
  | _ => .ok data

/-- The `Store` arm of `compress_chunk_with_algorithm`: apply each
transformation in turn. -/
def store_codec (transformations : List DataTransformation)
    (data : List Nat) : CompressionResult (List Nat) :=
  transformations.foldlM apply_transformation data

/-- `compress_chunk_with_algorithm`.  Empty plaintext short-circuits to an
empty vector with checksum 0; otherwise the CRC-32 of the plaintext is
computed first, the codec (the `match algorithm` over third-party
single-shot APIs, abstracted as the `codec` parameter — `Store`'s in-repo
arm is `store_codec`) is invoked, and the frame
`[orig_len | comp_len | crc32 | payload]` is assembled with `as u32` casts
on both lengths. -/
def compress_chunk_with_algorithm
    (codec : List Nat → CompressionResult (List Nat))
    (data : List Nat) : CompressionResult (List Nat × Nat) :=
  if data = [] then .ok ([], 0)
  else
    let checksum := crc32 data
    match codec data with
    | .error e => .error e
    | .ok compressed =>
      .ok (u32_le (data.length % 2 ^ 32) ++ u32_le (compressed.length % 2 ^ 32) ++
        u32_le checksum ++ compressed, checksum)

/-! ## Chunked pipeline (source lines 2814-2929) -/

/-- The producer loop of `compress_file_chunked`: read up to `chunk_size`
bytes, stop at the first zero-byte read.  For a regular file each read
returns `min chunk_size remaining` bytes and returns 0 exactly at EOF, so
the loop splits the file into maximal `chunk_size` pieces. -/
def read_chunks (chunk_size : Nat) (file : List Nat) : List (List Nat) :=
  if h : chunk_size = 0 ∨ file = [] then []
  else
    file.take chunk_size :: read_chunks chunk_size (file.drop chunk_size)
termination_by file.length
decreasing_by
  rcases not_or.mp h with ⟨h1, h2⟩
  simp only [List.length_drop]
  have : 0 < file.length := List.length_pos.mpr h2
  omega

/-- The consumer loop of `compress_file_chunked`: collect `(chunk_id, result)`
messages from the worker channel into an ordered slots array until
`completed` reaches `total_chunks`, returning the first received error;
an exhausted channel (`recv` fails) breaks out of the loop. -/
def collect_go {α : Type} (total : Nat) :
    List (Nat × CompressionResult α) → List (Option α) → Nat →
    CompressionResult (List (Option α))
  | msgs, results, completed =>
    if completed < total then
      match msgs with
      | [] => .ok results
      | (chunk_id, .ok compressed_chunk) :: rest =>
        collect_go total rest (results.set chunk_id (some compressed_chunk))
          (completed + 1)
      | (_, .error e) :: _ => .error e
    else .ok results

/-- `compress_file_chunked`'s result collection: slots initialised to `None`,
then the surviving `Some` entries extracted in chunk-id order. -/
def collect_results {α : Type} (total : Nat)
    (msgs : List (Nat × CompressionResult α)) : CompressionResult (List α) :=
  match collect_go total msgs (List.replicate total none) 0 with
  | .error e => .error e
  | .ok results => .ok (results.filterMap id)

/-! ## Container body (source lines 3153-3196) -/

/-- The chunk-offset index of `write_compressed_chunks`: each offset is the
running position, advanced by 4 (size prefix) plus the framed chunk size. -/
def chunk_offsets (current_offset : Nat) : List (List Nat) → List Nat
  | [] => []
  | chunk :: rest => current_offset :: chunk_offsets (current_offset + 4 + chunk.length) rest

/-- `write_compressed_chunks` as the byte sequence it emits: serialized
algorithm descriptor (rmp-serde output, abstracted as `algorithm_data`)
with a u32 length prefix, the u32 chunk count, the u64 offset index, then
each framed chunk behind a u32 length prefix. -/
def write_compressed_chunks_bytes (algorithm_data : List Nat)
    (chunks : List (List Nat)) : List Nat :=
  let index_start_pos := 8 + algorithm_data.length
  u32_le (algorithm_data.length % 2 ^ 32) ++ algorithm_data ++
  u32_le (chunks.length % 2 ^ 32) ++
  (chunk_offsets (index_start_pos + chunks.length * 8) chunks).flatMap
    (fun offset => u64_le offset) ++
  chunks.flatMap (fun chunk => u32_le (chunk.length % 2 ^ 32) ++ chunk)

/-- The container bytes of one compression run
(`perform_compression_internal`): the header followed by the chunk section.
`timestamp` is the wall clock sampled inside `write_file_header`. -/
def container_bytes (timestamp : Nat) (algorithm : CompressionAlgorithm)
    (file_type : DetectedFileType) (algorithm_data : List Nat)
    (chunks : List (List Nat)) : List Nat :=
  write_file_header timestamp algorithm file_type ++
  write_compressed_chunks_bytes algorithm_data chunks

/-! ## Retry / recovery wrapper (source lines 2457-2525) -/

/-- The fallback descriptor substituted for `Algorithm` errors. -/
def fallback_algorithm : CompressionAlgorithm :=
  .Zstd 3 false false (some 22) .Fast (some 1)

/-- The `while attempts < max_attempts` loop of
`perform_compression_with_recovery`, with `max_attempts = 3`.  `internal`
abstracts `perform_compression_internal` (an I/O action); the recovery arm
for `Memory` halves the chunk size, the arm for `Algorithm` substitutes
`fallback_algorithm`, and any other recoverable error just retries. -/
def recovery_loop {α : Type}
    (internal : CompressionAlgorithm → CompressionOptions → CompressionResult α)
    (algorithm : CompressionAlgorithm) (options : CompressionOptions)
    (attempts : Nat) : CompressionResult (CompressionResult α) :=
  if _h : attempts < 3 then
    match internal algorithm options with
    | .ok result => .ok (.ok result)
    | .error e =>
      if e.is_recoverable = true ∧ attempts < 3 - 1 then
        match e with
        | .Memory _ _ _ =>
          let modified_options := { options with chunk_size := options.chunk_size / 2 }
          match internal algorithm modified_options with
          | .ok result => .ok (.ok result)
          | .error _ => recovery_loop internal algorithm options (attempts + 1)
        | .Algorithm _ _ _ _ =>
          match internal fallback_algorithm options with
          | .ok result => .ok (.ok result)
          | .error _ => recovery_loop internal algorithm options (attempts + 1)
        | _ => recovery_loop internal algorithm options (attempts + 1)
      else .ok (.error e)
  else
    .error (.ResourceExhaustion ("compression_attempts")
      ("Failed after 3 attempts") (some 3) (some 3))
termination_by 3 - attempts

/-- `perform_compression_with_recovery` starts the loop at zero attempts. -/
def perform_compression_with_recovery {α : Type}
    (internal : CompressionAlgorithm → CompressionOptions → CompressionResult α)
    (algorithm : CompressionAlgorithm) (options : CompressionOptions) :
    CompressionResult (CompressionResult α) :=
  recovery_loop internal algorithm options 0

/-! ## Decompression (source lines 1490-1540 and 3488-3511)

Every helper on the decode path is a stub in the source; the stubs are
translated verbatim. -/

/-- The metadata fields `decompress_file_async` would use. -/
structure EnhancedMetadata where
  format_version : Nat
  original_size : Nat
  compressed_size : Nat

/-- `validate_decompression_inputs` (stub: always `Ok(())`). -/
def validate_decompression_inputs (_input_path _output_path : String) :
    CompressionResult Unit := .ok ()

/-- `read_and_validate_metadata` (stub: always a `FeatureUnavailable`
error). -/
def read_and_validate_metadata (_input_path : String) :
    CompressionResult EnhancedMetadata :=
  .error (.FeatureUnavailable ("decompression")
    ("Decompression not fully implemented") none)

/-- `check_compatibility` (stub: always `Ok(())`). -/
def check_compatibility (_metadata : EnhancedMetadata) :
    CompressionResult Unit := .ok ()

/-- `perform_decompression_with_recovery` (stub: always `Ok(())`). -/
def perform_decompression_with_recovery (_input_path _output_path : String)
    (_metadata : EnhancedMetadata) : CompressionResult Unit := .ok ()

/-- `attempt_decompression_recovery` (stub: always a `FeatureUnavailable`
error). -/
def attempt_decompression_recovery (_input_path _output_path : String)
    (_metadata : EnhancedMetadata) : CompressionResult EnhancedMetadata :=
  .error (.FeatureUnavailable ("decompression_recovery")
    ("Recovery not implemented") none)

/-- `decompress_file_async`: validate, read metadata (the `?` operator
propagates its error directly), check compatibility, run the decode
pipeline, and on a recoverable failure fall back to recovery. -/
def decompress_file_async (input_path output_path : String) :
    CompressionResult EnhancedMetadata :=
  match validate_decompression_inputs input_path output_path with
  | .error e => .error e
  | .ok _ =>
    match read_and_validate_metadata input_path with
    | .error e => .error e
    | .ok metadata =>
      match check_compatibility metadata with
      | .error e => .error e
      | .ok _ =>
        match perform_decompression_with_recovery input_path output_path metadata with
        | .ok _ => .ok metadata
        | .error e =>
          if e.is_recoverable then
            attempt_decompression_recovery input_path output_path metadata
          else .error e

/-! ## Specification-side definitions and concrete test fixtures -/

/-- The spec's compressibility factor table, as amended to the code's
values: 1.2 for Text, 0.8 for Binary, 0.3 for Image, 0.1 for Video and
Audio, 0.05 for Archive, 1.0 otherwise. -/
def amended_compressibility_factor : DetectedFileType → ℚ
  | .Text _ => 12 / 10
  | .Binary => 8 / 10
  | .Image => 3 / 10
  | .Video | .Audio' => 1 / 10
  | .Archive _ => 1 / 20
  | _ => 1

/-- `CompressionOptions::default()`. -/
def default_options : CompressionOptions :=
  { algorithm := none
    optimization_target := .Balanced
    chunk_size := 16 * 1024 * 1024
    enable_dictionary := true
    enable_neural := false
    enable_gpu := false
    enable_encryption := false
    enable_steganography := false
    error_correction_level := .Standard
    max_memory_usage := none
    thread_count := none }

/-- A plain-text analysis record used in concrete instantiations. -/
def analysis_text : EnhancedContentAnalysis :=
  { entropy := 1 / 2, compressibility_score := 1 / 2, file_type := .Text .PlainText }

/-- An image analysis record consistent with the analyzer
(`compressibility = clamp((1 - 1/2) * 0.3) = 3/20`). -/
def analysis_image : EnhancedContentAnalysis :=
  { entropy := 1 / 2, compressibility_score := 3 / 20, file_type := .Image }

/-! ## Supporting lemmas -/

theorem u32_decode_u32_le (n : Nat) : u32_decode (u32_le n) = n % 2 ^ 32 := by
  simp [u32_le, u32_decode]
  omega

theorem u64_decode_u64_le (n : Nat) : u64_decode (u64_le n) = n % 2 ^ 64 := by
  simp [u64_le, u64_decode]
  omega

theorem crc32_step_lt {c : Nat} (hc : c < 2 ^ 32) : crc32_step c < 2 ^ 32 := by
  unfold crc32_step
  split
  · exact Nat.xor_lt_two_pow (by omega) (by norm_num)
  · omega

theorem iterate_crc32_lt {c : Nat} (k : Nat) (hc : c < 2 ^ 32) :
    iterate_steps crc32_step k c < 2 ^ 32 := by
  induction k generalizing c with
  | zero => exact hc
  | succ k ih => exact ih (crc32_step_lt hc)

theorem crc32_byte_lt {c : Nat} (b : Nat) (hc : c < 2 ^ 32) :
    crc32_byte c b < 2 ^ 32 := by
  unfold crc32_byte
  exact iterate_crc32_lt 8 (Nat.xor_lt_two_pow hc (by have := Nat.mod_lt b (y := 256) (by norm_num); omega))

theorem crc32_lt (data : List Nat) : crc32 data < 2 ^ 32 := by
  unfold crc32
  have : ∀ (l : List Nat) (c : Nat), c < 2 ^ 32 → l.foldl crc32_byte c < 2 ^ 32 := by
    intro l
    induction l with
    | nil => intro c hc; exact hc
    | cons b rest ih => intro c hc; exact ih _ (crc32_byte_lt b hc)
  exact Nat.xor_lt_two_pow (this data 0xFFFFFFFF (by norm_num)) (by norm_num)

/-! ## C1 -/

/-- C1: the round-trip property cannot hold on this code: `decompress_file_async`
propagates the error of the `read_and_validate_metadata` stub, so decompression
of every container (indeed, of every input path) fails with
`FeatureUnavailable("decompression")` instead of recovering the original
bytes. -/
theorem c1_roundtrip_decompression_stub (input_path output_path : String) :
    decompress_file_async input_path output_path =
      .error (.FeatureUnavailable ("decompression")
        ("Decompression not fully implemented") none) := rfl

/-! ## C9 -/

/-- C9 counterexample: for a plain-text sample whose normalized entropy is
1/2, the analyzer's compressibility score is 3/5, but the claimed formula
`clamp((1 − entropy) × 1.3, 0, 1)` gives 13/20: the Text factor in the code
is 1.2, not 1.3. -/
theorem c9_compressibility_counterexample :
    estimate_compressibility_advanced (1 / 2) (.Text .PlainText) ≠
      max (min ((1 - 1 / 2) * (13 / 10)) 1) 0 := by
  unfold estimate_compressibility_advanced
  norm_num

/-- C9 as amended: the compressibility score equals
`clamp((1 − entropy) × factor, 0, 1)` with factor 1.2 for Text, 0.8 for
Binary, 0.3 for Image, 0.1 for Video/Audio, 0.05 for Archive and 1.0 for the
remaining classes. -/
theorem c9_compressibility_amended (entropy : ℚ) (file_type : DetectedFileType) :
    estimate_compressibility_advanced entropy file_type =
      max (min ((1 - entropy) * amended_compressibility_factor file_type) 1) 0 := by
  unfold estimate_compressibility_advanced amended_compressibility_factor
  cases file_type <;> rfl

/-! ## C10 -/

theorem read_chunks_nil_eq (chunk_size : Nat) : read_chunks chunk_size [] = [] := by
  rw [read_chunks]
  exact dif_pos (Or.inr rfl)

theorem read_chunks_cons_eq (chunk_size : Nat) (file : List Nat)
    (h : ¬(chunk_size = 0 ∨ file = [])) :
    read_chunks chunk_size file =
      file.take chunk_size :: read_chunks chunk_size (file.drop chunk_size) := by
  rw [read_chunks]
  exact dif_neg h

theorem read_chunks_mem_ne_nil (chunk_size : Nat) (hcs : 0 < chunk_size) :
    ∀ (n : Nat) (file : List Nat), file.length ≤ n →
      ∀ c ∈ read_chunks chunk_size file, c ≠ [] := by
  intro n
  induction n with
  | zero =>
    intro file hlen c hc
    have : file = [] := List.eq_nil_of_length_eq_zero (Nat.le_zero.mp hlen)
    subst this
    rw [read_chunks_nil_eq] at hc
    exact absurd hc (List.not_mem_nil c)
  | succ n ih =>
    intro file hlen c hc
    by_cases hfile : file = []
    · subst hfile
      rw [read_chunks_nil_eq] at hc
      exact absurd hc (List.not_mem_nil c)
    · rw [read_chunks_cons_eq chunk_size file (by push_neg; exact ⟨by omega, hfile⟩)] at hc
      rcases List.mem_cons.mp hc with hhead | htail
      · subst hhead
        intro htake
        rcases List.take_eq_nil_iff.mp htake with h0 | h0
        · omega
        · exact hfile h0
      · refine ih (file.drop chunk_size) ?_ c htail
        have : 0 < file.length := List.length_pos.mpr hfile
        rw [List.length_drop]
        omega

/-- C10: `compress_chunk_with_algorithm` on empty plaintext returns the empty
vector with checksum 0 (no 12-byte frame header), and the reader loop of
`compress_file_chunked` never produces an empty chunk (it stops at the first
zero-byte read), so no empty frame reaches the container. -/
theorem c10_empty_chunk :
    (∀ codec : List Nat → CompressionResult (List Nat),
        compress_chunk_with_algorithm codec [] = .ok ([], 0)) ∧
    (∀ (chunk_size : Nat) (file : List Nat), 0 < chunk_size →
        ∀ c ∈ read_chunks chunk_size file, c ≠ []) :=
  ⟨fun _ => rfl,
   fun chunk_size file hcs =>
     read_chunks_mem_ne_nil chunk_size hcs file.length file le_rfl⟩

/-- C10 witness: at chunk size 2 the 3-byte file [7, 8, 9] is read as the
nonempty chunks [7, 8] and [9], and the empty-plaintext short-circuit holds
for the identity (Store) codec. -/
theorem c10_empty_chunk_witness :
    compress_chunk_with_algorithm (store_codec []) [] = .ok ([], 0) ∧
    read_chunks 2 [7, 8, 9] = [[7, 8], [9]] ∧ [7, 8] ≠ ([] : List Nat) := by
  have h2 : read_chunks 2 [7, 8, 9] = [[7, 8], [9]] := by
    rw [read_chunks_cons_eq 2 [7, 8, 9] (by simp),
        read_chunks_cons_eq 2 (List.drop 2 [7, 8, 9]) (by simp)]
    simp [read_chunks_nil_eq]
  refine ⟨c10_empty_chunk.1 (store_codec []), h2, ?_⟩
  exact c10_empty_chunk.2 2 [7, 8, 9] (by norm_num) [7, 8] (by rw [h2]; simp)

/-! ## C5 -/

set_option maxHeartbeats 2000000 in
theorem select_algorithm_neural_enhanced_total (max_threads : Nat)
    (analysis : EnhancedContentAnalysis) (options : CompressionOptions) :
    ∃ a, select_algorithm_neural_enhanced max_threads analysis options = .ok a := by
  obtain ⟨e, sc, ft⟩ := analysis
  unfold select_algorithm_neural_enhanced
  cases ft <;> dsimp only <;> split_ifs <;> exact ⟨_, rfl⟩

/-- C5 counterexample: the algorithm cache is consulted before the explicit
`options.algorithm` override, so with a cached `Store` entry for the analysis
hash and an explicit `Zstd{9}` in the options, the selector returns the
cached `Store` descriptor, not the supplied one. -/
theorem c5_selector_counterexample :
    select_optimal_algorithm (some (.Store [])) 4 analysis_text
        { default_options with algorithm := some (.Zstd 9 false false none .Default none) } =
      .ok (.Store []) ∧
    (CompressionAlgorithm.Store []) ≠ .Zstd 9 false false none .Default none :=
  ⟨rfl, fun h => CompressionAlgorithm.noConfusion h⟩

/-- C5 as amended: the selector is total (every `(analysis, options)` pair
yields a descriptor), and when the algorithm cache has no entry for the
analysis hash, an explicitly supplied `options.algorithm` is returned
unchanged; a cache hit takes precedence over the explicit choice. -/
theorem c5_selector_amended (cached : Option CompressionAlgorithm)
    (max_threads : Nat) (analysis : EnhancedContentAnalysis)
    (options : CompressionOptions) :
    (∃ a, select_optimal_algorithm cached max_threads analysis options = .ok a) ∧
    (cached = none → ∀ d, options.algorithm = some d →
      select_optimal_algorithm cached max_threads analysis options = .ok d) := by
  constructor
  · cases cached with
    | some a => exact ⟨a, rfl⟩
    | none =>
      cases halg : options.algorithm with
      | some a => exact ⟨a, by simp [select_optimal_algorithm, halg]⟩
      | none =>
        obtain ⟨a, ha⟩ := select_algorithm_neural_enhanced_total max_threads analysis options
        exact ⟨a, by simp [select_optimal_algorithm, halg, ha]⟩
  · rintro rfl d hd
    simp [select_optimal_algorithm, hd]

/-- C5 witness: with an empty cache and explicit `Zstd{9}`, the selector
returns exactly `Zstd{9}`. -/
theorem c5_selector_amended_witness :
    select_optimal_algorithm none 4 analysis_text
        { default_options with algorithm := some (.Zstd 9 false false none .Default none) } =
      .ok (.Zstd 9 false false none .Default none) :=
  (c5_selector_amended none 4 analysis_text _).2 rfl _ rfl

/-! ## C8 -/

/-- C8 counterexample: an image analysis consistent with the analyzer
(entropy 1/2, compressibility 3/20) makes the selector return LZ4-HC, not
`Store`: the Image arm returns `Store` only when both the compressibility
and the entropy headroom tests fail. -/
theorem c8_image_archive_counterexample :
    select_algorithm_neural_enhanced 4 analysis_image default_options =
      .ok (.Lz4 .HighCompression 4 .Max256KB true true) ∧
    (CompressionAlgorithm.Lz4 .HighCompression 4 .Max256KB true true) ≠ .Store [] := by
  refine ⟨?_, fun h => CompressionAlgorithm.noConfusion h⟩
  unfold select_algorithm_neural_enhanced analysis_image
  norm_num [DetectedFileType.isSourceCodeText, DetectedFileType.isBinary, default_options]

/-- C8 as amended: for an Image analysis the selector returns `Store` exactly
when `compressibility_score ≤ 0.3` and `entropy ≥ 0.9` (otherwise Zstd-6 or
LZ4-HC); for an Archive analysis it returns `Store` exactly when
`properties.compression_used` holds (otherwise a Zstd descriptor). -/
theorem c8_image_archive_amended (max_threads : Nat)
    (analysis : EnhancedContentAnalysis) (options : CompressionOptions) :
    (analysis.file_type = .Image →
      (select_algorithm_neural_enhanced max_threads analysis options = .ok (.Store []) ↔
        analysis.compressibility_score ≤ 3 / 10 ∧ 9 / 10 ≤ analysis.entropy)) ∧
    (∀ compression_used,
      analysis.file_type = .Archive compression_used →
      (select_algorithm_neural_enhanced max_threads analysis options = .ok (.Store []) ↔
        compression_used = true)) := by
  constructor
  · intro himg
    simp only [select_algorithm_neural_enhanced, himg,
      DetectedFileType.isSourceCodeText, DetectedFileType.isBinary]
    norm_num
    split_ifs with h1 h2
    · refine iff_of_false (by simp) ?_
      rintro ⟨ha, _⟩
      exact absurd h1 (not_lt.mpr ha)
    · refine iff_of_false (by simp) ?_
      rintro ⟨_, hb⟩
      have : analysis.entropy < 9 / 10 := by linarith
      exact absurd hb (not_le.mpr this)
    · refine iff_of_true rfl ⟨le_of_not_lt h1, by linarith [not_lt.mp h2]⟩
  · intro compression_used harch
    simp only [select_algorithm_neural_enhanced, harch,
      DetectedFileType.isSourceCodeText, DetectedFileType.isBinary]
    norm_num
    cases compression_used <;> simp

/-- C8 witness: a high-entropy image analysis (entropy 19/20,
compressibility 1/50) is stored verbatim. -/
theorem c8_image_archive_amended_witness :
    select_algorithm_neural_enhanced 4
        { entropy := 19 / 20, compressibility_score := 1 / 50, file_type := .Image }
        default_options = .ok (.Store []) :=
  ((c8_image_archive_amended 4
      { entropy := 19 / 20, compressibility_score := 1 / 50, file_type := .Image }
      default_options).1 rfl).mpr ⟨by norm_num, by norm_num⟩

/-! ## C6 -/

/-- An engine configuration with three worker threads and an 8 MiB memory
limit. -/
def config_small : EngineConfiguration :=
  { max_threads := 3, memory_limit := 8 * 1024 * 1024
    enable_gpu := false, enable_neural := false }

/-- Options selecting 1 MiB chunks and the `Store` codec. -/
def options_1MiB : CompressionOptions :=
  { default_options with chunk_size := 1024 * 1024, algorithm := some (.Store []) }

/-- C6 counterexample: with 1 MiB chunks, 3 threads and an 8 MiB limit, the
claimed condition `chunk_size × thread_count × 3 > memory_limit` holds
(9 MiB > 8 MiB), yet option validation succeeds: the code's estimate is
`chunk_size × 3` plus an algorithm constant and ignores the thread count. -/
theorem c6_memory_ceiling_counterexample :
    options_1MiB.chunk_size * config_small.max_threads * 3 > config_small.memory_limit ∧
    validate_compression_options config_small options_1MiB = .ok () := by
  constructor
  · norm_num [options_1MiB, config_small, default_options]
  · rfl

/-- C6 as amended: `compress_file` fails with a `Memory` error — and does so
during input validation, before the output file is created — exactly when
`estimate_memory_usage(algorithm, chunk_size)` (which is `chunk_size × 3`
plus an algorithm-specific term, independent of the thread count) exceeds
`memory_limit`, provided the neural/GPU feature guards pass. -/
theorem c6_memory_ceiling_amended {α : Type} (config : EngineConfiguration)
    (options : CompressionOptions) (a : CompressionAlgorithm)
    (rest : Unit → CompressionResult α × Bool)
    (halg : options.algorithm = some a)
    (hn : (options.enable_neural && !config.enable_neural) = false)
    (hg : (options.enable_gpu && !config.enable_gpu) = false) :
    (estimate_memory_usage a options.chunk_size > config.memory_limit →
      compress_file_outcome config options rest =
        (.error (.Memory (estimate_memory_usage a options.chunk_size)
          (some config.memory_limit) ("compression_validation")), false)) ∧
    (estimate_memory_usage a options.chunk_size ≤ config.memory_limit →
      compress_file_outcome config options rest = rest ()) := by
  constructor
  · intro hgt
    simp [compress_file_outcome, validate_compression_options, hn, hg, halg, hgt]
  · intro hle
    simp [compress_file_outcome, validate_compression_options, hn, hg, halg,
      Nat.not_lt.mpr hle]

/-- An engine configuration whose memory limit (1 KiB) is below any
realistic estimate. -/
def config_tiny : EngineConfiguration :=
  { max_threads := 4, memory_limit := 1024, enable_gpu := false, enable_neural := false }

/-- C6 witness: with a 1 KiB limit and 1 MiB chunks the pipeline stops with
the `Memory` error and the output file is never created. -/
theorem c6_memory_ceiling_amended_witness :
    compress_file_outcome config_tiny options_1MiB
        (fun _ => ((.ok 0 : CompressionResult Nat), true)) =
      (.error (.Memory (estimate_memory_usage (.Store []) options_1MiB.chunk_size)
        (some config_tiny.memory_limit) ("compression_validation")), false) :=
  (c6_memory_ceiling_amended config_tiny options_1MiB (.Store []) _ rfl rfl rfl).1
    (by norm_num [estimate_memory_usage, options_1MiB, config_tiny, default_options])

/-! ## C3 -/

/-- C3 counterexample: in the header written for any run (here timestamp 0,
`Store`, `Unknown`), bytes 4..8 are the ASCII "v4.0" tag, whose little-endian
u32 reading is not 5; the u32 format version sits at bytes 8..12 and equals
4. -/
theorem c3_header_counterexample :
    ((write_file_header 0 (.Store []) .Unknown).drop 4).take 4 = MAGIC_VERSION ∧
    u32_decode (((write_file_header 0 (.Store []) .Unknown).drop 4).take 4) ≠ 5 := by
  exact ⟨rfl, by decide⟩

/-- C3 as amended: every header starts with the 4 ASCII bytes `ENCS`;
bytes 4..8 are the ASCII tag "v4.0" (not a u32 version); the u32 format
version occupies bytes 8..12 and the current version is 4, not 5. -/
theorem c3_header_amended (timestamp : Nat) (algorithm : CompressionAlgorithm)
    (file_type : DetectedFileType) :
    (write_file_header timestamp algorithm file_type).take 4 = MAGIC_BYTES ∧
    ((write_file_header timestamp algorithm file_type).drop 4).take 4 = MAGIC_VERSION ∧
    u32_decode (((write_file_header timestamp algorithm file_type).drop 8).take 4) = VERSION ∧
    VERSION = 4 :=
  ⟨rfl, rfl, rfl, rfl⟩

/-! ## C2 -/

/-- Bytes 12..20 of every container are the little-endian timestamp written
by `write_file_header`. -/
theorem container_timestamp_bytes (timestamp : Nat) (algorithm : CompressionAlgorithm)
    (file_type : DetectedFileType) (algorithm_data : List Nat)
    (chunks : List (List Nat)) :
    ((container_bytes timestamp algorithm file_type algorithm_data chunks).drop 12).take 8 =
      u64_le timestamp := rfl

theorem u64_le_inj {t1 t2 : Nat} (h : u64_le t1 = u64_le t2) :
    t1 % 2 ^ 64 = t2 % 2 ^ 64 := by
  have h1 := congrArg u64_decode h
  rwa [u64_decode_u64_le, u64_decode_u64_le] at h1

/-- C2 counterexample: two compression runs over the same input, descriptor
and chunk size that differ only in the sampled wall-clock second produce
different container bytes (the timestamp field at bytes 12..20 differs). -/
theorem c2_determinism_counterexample :
    container_bytes 0 (.Store []) .Unknown [] [[1, 2, 3]] ≠
      container_bytes 1 (.Store []) .Unknown [] [[1, 2, 3]] := by
  intro h
  have h12 : u64_le 0 = u64_le 1 := by
    rw [← container_timestamp_bytes 0 (.Store []) .Unknown [] [[1, 2, 3]],
        ← container_timestamp_bytes 1 (.Store []) .Unknown [] [[1, 2, 3]], h]
  have := u64_le_inj h12
  norm_num at this

theorem collect_go_all_ok {α : Type} (total : Nat) (f : Nat → α) :
    ∀ (msgs : List (Nat × CompressionResult α)) (slots : List (Option α))
      (completed : Nat),
      (∀ m ∈ msgs, ∃ i, m = (i, .ok (f i))) →
      completed + msgs.length ≤ total →
      collect_go total msgs slots completed =
        .ok (msgs.foldl (fun s m => s.set m.1 (some (f m.1))) slots) := by
  intro msgs
  induction msgs with
  | nil =>
    intro slots completed _ _
    rw [collect_go]
    split <;> rfl
  | cons m rest ih =>
    intro slots completed hok hlen
    obtain ⟨i, rfl⟩ := hok m (List.mem_cons_self m rest)
    rw [collect_go, if_pos (by simp only [List.length_cons] at hlen; omega)]
    exact ih _ _ (fun m hm => hok m (List.mem_cons_of_mem _ hm))
      (by simp only [List.length_cons] at hlen; omega)

theorem foldl_set_length {α : Type} (f : Nat → α) :
    ∀ (msgs : List (Nat × CompressionResult α)) (slots : List (Option α)),
      (msgs.foldl (fun s m => s.set m.1 (some (f m.1))) slots).length = slots.length := by
  intro msgs
  induction msgs with
  | nil => intro slots; rfl
  | cons m rest ih =>
    intro slots
    rw [List.foldl_cons, ih, List.length_set]

theorem foldl_set_get_not_mem {α : Type} (f : Nat → α) :
    ∀ (msgs : List (Nat × CompressionResult α)) (slots : List (Option α)) (j : Nat),
      j ∉ msgs.map Prod.fst →
      (msgs.foldl (fun s m => s.set m.1 (some (f m.1))) slots).get? j = slots.get? j := by
  intro msgs
  induction msgs with
  | nil => intro slots j _; rfl
  | cons m rest ih =>
    intro slots j hj
    simp only [List.map_cons, List.mem_cons, not_or] at hj
    rw [List.foldl_cons, ih _ _ hj.2, List.get?_set_ne _ _ (Ne.symm hj.1)]

theorem foldl_set_get_mem {α : Type} (f : Nat → α) :
    ∀ (msgs : List (Nat × CompressionResult α)) (slots : List (Option α)) (j : Nat),
      j ∈ msgs.map Prod.fst → j < slots.length →
      (msgs.foldl (fun s m => s.set m.1 (some (f m.1))) slots).get? j =
        some (some (f j)) := by
  intro msgs
  induction msgs with
  | nil => intro slots j hj; simp at hj
  | cons m rest ih =>
    intro slots j hj hlen
    rw [List.foldl_cons]
    by_cases hrest : j ∈ rest.map Prod.fst
    · exact ih _ _ hrest (by rw [List.length_set]; exact hlen)
    · have hjm : j = m.1 := by
        simp only [List.map_cons, List.mem_cons] at hj
        tauto
      subst hjm
      rw [foldl_set_get_not_mem f rest _ _ hrest,
          List.get?_set_eq_of_lt _ hlen]

theorem collect_results_perm {α : Type} (total : Nat) (f : Nat → α)
    (msgs : List (Nat × CompressionResult α))
    (hperm : msgs.Perm ((List.range total).map (fun i => (i, .ok (f i))))) :
    collect_results total msgs = .ok ((List.range total).map f) := by
  have hok : ∀ m ∈ msgs, ∃ i, m = (i, .ok (f i)) := by
    intro m hm
    have hm2 := hperm.mem_iff.mp hm
    rw [List.mem_map] at hm2
    obtain ⟨i, _, hi⟩ := hm2
    exact ⟨i, hi.symm⟩
  have hlen : msgs.length = total := by
    rw [hperm.length_eq, List.length_map, List.length_range]
  have hids : ∀ j, j ∈ msgs.map Prod.fst ↔ j < total := by
    intro j
    rw [(hperm.map Prod.fst).mem_iff]
    simp [List.map_map, List.mem_range, Function.comp]
  unfold collect_results
  rw [collect_go_all_ok total f msgs _ 0 hok (by omega)]
  have hfinal :
      msgs.foldl (fun s m => s.set m.1 (some (f m.1))) (List.replicate total none) =
        (List.range total).map (fun i => some (f i)) := by
    apply List.ext_get?
    intro j
    by_cases hj : j < total
    · rw [foldl_set_get_mem f msgs _ j ((hids j).mpr hj)
        (by rw [List.length_replicate]; exact hj)]
      rw [List.get?_map, List.get?_range hj]
      rfl
    · rw [foldl_set_get_not_mem f msgs _ j (fun hmem => hj ((hids j).mp hmem))]
      rw [List.get?_eq_none.mpr (by rw [List.length_replicate]; omega),
          List.get?_eq_none.mpr (by rw [List.length_map, List.length_range]; omega)]
  rw [hfinal]
  show Except.ok (((List.range total).map (fun i => some (f i))).filterMap id) =
    Except.ok ((List.range total).map f)
  congr 1
  rw [List.filterMap_map]
  exact congrFun (List.filterMap_eq_map f) (List.range total)

/-- C2 as amended: for fixed input, descriptor and chunk size the chunk
section is deterministic — the writer reassembles worker results by chunk id,
so any arrival order (any thread count) yields the same ordered chunk list —
but the container files of two runs are not byte-identical: the header embeds
the wall-clock timestamp at bytes 12..20 (and a CRC-64 covering it), so runs
whose timestamps differ produce different bytes. -/
theorem c2_determinism_amended {α : Type} :
    (∀ (total : Nat) (f : Nat → α) (msgs : List (Nat × CompressionResult α)),
      msgs.Perm ((List.range total).map (fun i => (i, .ok (f i)))) →
      collect_results total msgs = .ok ((List.range total).map f)) ∧
    (∀ (t1 t2 : Nat) (algorithm : CompressionAlgorithm)
        (file_type : DetectedFileType) (algorithm_data : List Nat)
        (chunks : List (List Nat)),
      t1 % 2 ^ 64 ≠ t2 % 2 ^ 64 →
      container_bytes t1 algorithm file_type algorithm_data chunks ≠
        container_bytes t2 algorithm file_type algorithm_data chunks) := by
  constructor
  · exact fun total f msgs hperm => collect_results_perm total f msgs hperm
  · intro t1 t2 algorithm file_type algorithm_data chunks hne h
    apply hne
    apply u64_le_inj
    rw [← container_timestamp_bytes t1 algorithm file_type algorithm_data chunks,
        ← container_timestamp_bytes t2 algorithm file_type algorithm_data chunks, h]

/-- C2 witness: the collector turns the out-of-order arrivals
`[(1, frame 1), (0, frame 0)]` into the ordered chunk list, and two runs at
timestamps 0 and 5 produce different containers. -/
theorem c2_determinism_amended_witness :
    collect_results 2 [(1, .ok [5]), (0, .ok [9])] =
      .ok ((List.range 2).map (fun i => if i = 0 then [9] else [5])) ∧
    container_bytes 0 (.Store []) .Unknown [] [[9], [5]] ≠
      container_bytes 5 (.Store []) .Unknown [] [[9], [5]] := by
  constructor
  · refine (c2_determinism_amended (α := List Nat)).1 2
      (fun i => if i = 0 then [9] else [5]) [(1, .ok [5]), (0, .ok [9])] ?_
    show ([(1, Except.ok [5]), (0, Except.ok [9])] :
        List (Nat × CompressionResult (List Nat))).Perm
      [(0, Except.ok [9]), (1, Except.ok [5])]
    exact List.Perm.swap _ _ _
  · exact (c2_determinism_amended (α := List Nat)).2 0 5 (.Store []) .Unknown [] [[9], [5]]
      (by decide)

/-! ## C4 -/

/-- C4: for every frame the pipeline produces (nonempty plaintext, the codec
returning a payload below the u32 cast bound), the frame is at least 12 bytes,
bytes 4..8 as a little-endian u32 equal `frame.len() - 12`, and bytes 8..12
equal the CRC-32 of the plaintext, which is computed before the codec runs
(the checksum component is `crc32 data` for every codec). -/
theorem c4_chunk_framing (codec : List Nat → CompressionResult (List Nat))
    (data compressed : List Nat) (hdata : data ≠ [])
    (hcodec : codec data = .ok compressed)
    (hlen : compressed.length < 2 ^ 32) :
    ∃ frame,
      compress_chunk_with_algorithm codec data = .ok (frame, crc32 data) ∧
      12 ≤ frame.length ∧
      u32_decode ((frame.drop 4).take 4) = frame.length - 12 ∧
      u32_decode ((frame.drop 8).take 4) = crc32 data := by
  refine ⟨u32_le (data.length % 2 ^ 32) ++ u32_le (compressed.length % 2 ^ 32) ++
    u32_le (crc32 data) ++ compressed, ?_, ?_, ?_, ?_⟩
  · unfold compress_chunk_with_algorithm
    rw [if_neg hdata, hcodec]
  · simp [u32_le]
  · have hseg : (((u32_le (data.length % 2 ^ 32) ++ u32_le (compressed.length % 2 ^ 32) ++
        u32_le (crc32 data) ++ compressed).drop 4).take 4) =
        u32_le (compressed.length % 2 ^ 32) := rfl
    rw [hseg, u32_decode_u32_le]
    simp only [List.length_append, u32_le, List.length_cons, List.length_nil]
    omega
  · have hseg : (((u32_le (data.length % 2 ^ 32) ++ u32_le (compressed.length % 2 ^ 32) ++
        u32_le (crc32 data) ++ compressed).drop 8).take 4) =
        u32_le (crc32 data) := rfl
    rw [hseg, u32_decode_u32_le]
    exact Nat.mod_eq_of_lt (crc32_lt data)

/-- C4 witness: the Store codec over the plaintext [1, 2, 3] produces the
frame [3,0,0,0, 3,0,0,0, crc bytes, 1,2,3] satisfying every framing law. -/
theorem c4_chunk_framing_witness :
    ∃ frame,
      compress_chunk_with_algorithm (store_codec []) [1, 2, 3] =
        .ok (frame, crc32 [1, 2, 3]) ∧
      12 ≤ frame.length ∧
      u32_decode ((frame.drop 4).take 4) = frame.length - 12 ∧
      u32_decode ((frame.drop 8).take 4) = crc32 [1, 2, 3] :=
  c4_chunk_framing (store_codec []) [1, 2, 3] [1, 2, 3] (by decide) rfl (by norm_num)

/-! ## C7 -/

theorem collect_go_first_error {α : Type} (total : Nat) (e : CompressionError)
    (i : Nat) (post : List (Nat × CompressionResult α)) :
    ∀ (pre : List (Nat × CompressionResult α)) (slots : List (Option α))
      (completed : Nat),
      (∀ m ∈ pre, ∃ c, m.2 = .ok c) →
      completed + pre.length < total →
      collect_go total (pre ++ (i, .error e) :: post) slots completed = .error e := by
  intro pre
  induction pre with
  | nil =>
    intro slots completed _ hlen
    rw [List.nil_append, collect_go, if_pos (by omega)]
  | cons m rest ih =>
    intro slots completed hok hlen
    obtain ⟨c, hc⟩ := hok m (List.mem_cons_self m rest)
    obtain ⟨mi, mr⟩ := m
    simp only at hc
    subst hc
    rw [List.cons_append, collect_go,
      if_pos (by simp only [List.length_cons] at hlen; omega)]
    exact ih _ _ (fun m hm => hok m (List.mem_cons_of_mem _ hm))
      (by simp only [List.length_cons] at hlen; omega)

/-- A `perform_compression_internal` oracle that fails with a recoverable
`Algorithm` error for every descriptor except the Zstd-3 fallback. -/
def c7_internal : CompressionAlgorithm → CompressionOptions → CompressionResult Nat :=
  fun algorithm _options =>
    match algorithm with
    | .Zstd 3 false false (some 22) .Fast (some 1) => .ok 0
    | _ => .error (.Algorithm ("zstd") ("codec failure") (some 0) true)

/-- C7 counterexample: a worker-style recoverable `Algorithm` error is not
surfaced to the caller: `perform_compression_with_recovery` silently
substitutes the Zstd-3 fallback algorithm and reports success. -/
theorem c7_propagation_counterexample :
    c7_internal (.Snappy .Raw false) default_options =
      .error (.Algorithm ("zstd") ("codec failure") (some 0) true) ∧
    perform_compression_with_recovery c7_internal (.Snappy .Raw false)
      default_options = .ok (.ok 0) := by
  refine ⟨rfl, ?_⟩
  unfold perform_compression_with_recovery
  rw [recovery_loop]
  rfl

/-- C7 as amended: the chunk collector of `compress_file_chunked` does
propagate the first received worker error and abandon the remaining work,
and `perform_compression_with_recovery` surfaces an error unchanged when it
is not recoverable; but recoverable errors (e.g. codec `Algorithm` errors,
which carry `recovery_possible = true`) are retried up to 3 attempts, with
the chunk size halved after a `Memory` error and a Zstd-3 fallback algorithm
substituted after an `Algorithm` error. -/
theorem c7_error_propagation_amended {α : Type} :
    (∀ (total : Nat) (e : CompressionError) (i : Nat)
        (pre post : List (Nat × CompressionResult α)),
      (∀ m ∈ pre, ∃ c, m.2 = .ok c) → pre.length < total →
      collect_results total (pre ++ (i, .error e) :: post) = .error e) ∧
    (∀ (internal : CompressionAlgorithm → CompressionOptions → CompressionResult α)
        (algorithm : CompressionAlgorithm) (options : CompressionOptions)
        (e : CompressionError),
      internal algorithm options = .error e → e.is_recoverable = false →
      perform_compression_with_recovery internal algorithm options =
        .ok (.error e)) := by
  constructor
  · intro total e i pre post hok hlen
    unfold collect_results
    rw [collect_go_first_error total e i post pre _ 0 hok (by omega)]
  · intro internal algorithm options e hint hrec
    unfold perform_compression_with_recovery
    rw [recovery_loop, dif_pos (by norm_num), hint]
    simp [hrec]

/-- An internal oracle failing with a non-recoverable `Configuration`
error. -/
def c7_nonrecoverable_internal :
    CompressionAlgorithm → CompressionOptions → CompressionResult Nat :=
  fun _ _ => .error (.Configuration ("runtime") ("init failed") none)

/-- C7 witness: the collector stops at the error received after one good
chunk, and a non-recoverable error is surfaced unchanged. -/
theorem c7_error_propagation_amended_witness :
    collect_results 2 [(0, .ok 11), (1, .error (.Configuration ("x") ("y") none))] =
      .error (.Configuration ("x") ("y") none) ∧
    perform_compression_with_recovery c7_nonrecoverable_internal (.Store [])
      default_options = .ok (.error (.Configuration ("runtime") ("init failed") none)) := by
  constructor
  · exact (c7_error_propagation_amended (α := Nat)).1 2 _ 1 [(0, .ok 11)] []
      (by intro m hm; simp only [List.mem_singleton] at hm; exact ⟨11, by rw [hm]⟩)
      (by norm_num)
  · exact (c7_error_propagation_amended (α := Nat)).2 c7_nonrecoverable_internal
      (.Store []) default_options _ rfl rfl

end ENCS
